import Mathlib

/-!
# Verification of the cpp-ECS-game-engine simulation core

A shallow embedding of the engine's entity registry, component storage,
geometry primitives and collision subsystem, with theorems settling the
frozen claims about them.

Modelling conventions:
* C++ `float` values are modelled as exact rationals (`ℚ`); the tuned
  constants `0.7f` and `0.3f` are the rationals `7/10` and `3/10`.
* `Rect.width`/`Rect.height` are `int` in the source, so they are `ℤ`
  here, coerced into `ℚ` where the source promotes them to `float`.
* `std::vector` becomes `List`; a C++ index write `v[i] = x` becomes
  `List.set`, a read `v[i]` becomes `List.getD` (out-of-range reads do
  not occur under the preconditions of the theorems below).
* The stacks kept in `mFreeList` (`push_back`/`back`/`pop_back`) are
  modelled with the stack top at the *head* of the list.
* The sentinel `INVALID_COMPONENT_INDEX` becomes `Option.none`.
-/

namespace ECSEngine

/-- `Point2D` from MathUtil.h: a point in 2D space (float coordinates). -/
structure Point2D where
  x : ℚ
  y : ℚ
deriving DecidableEq

/-- `Rect` from MathUtil.h: an axis-aligned rectangle, float top-left
corner with `int` width and height. -/
structure Rect where
  topLeft : Point2D
  width : ℤ
  height : ℤ
deriving DecidableEq

/-- `Rect::RectIntersect` from MathUtil.h: AABB overlap test. Returns
`false` iff one box is entirely left, right, above or below the other. -/
def Rect.RectIntersect (self other : Rect) : Bool :=
  let otherRight := other.topLeft.x + (other.width : ℚ)
  let thisRight := self.topLeft.x + (self.width : ℚ)
  let otherBottom := other.topLeft.y + (other.height : ℚ)
  let thisBottom := self.topLeft.y + (self.height : ℚ)
  if self.topLeft.x ≥ otherRight ∨ other.topLeft.x ≥ thisRight
      ∨ self.topLeft.y ≥ otherBottom ∨ other.topLeft.y ≥ thisBottom then
    false
  else
    true

/-- `Overlap` from CollisionSystem.h: penetration depth on each axis. -/
structure Overlap where
  horizontal : ℚ
  vertical : ℚ
deriving DecidableEq

/-- `CalculateOverlap` from CollisionSystem.h: penetration depths of the
intersection region of two bounding boxes. -/
def CalculateOverlap (rect1 rect2 : Rect) : Overlap :=
  let left1 := rect1.topLeft.x
  let right1 := left1 + (rect1.width : ℚ)
  let top1 := rect1.topLeft.y
  let bottom1 := top1 + (rect1.height : ℚ)
  let left2 := rect2.topLeft.x
  let right2 := left2 + (rect2.width : ℚ)
  let top2 := rect2.topLeft.y
  let bottom2 := top2 + (rect2.height : ℚ)
  { horizontal := min right1 right2 - max left1 left2
    vertical := min bottom1 bottom2 - max top1 top2 }

/-- Characterization of the AABB test: it reports a collision exactly
when the boxes overlap strictly on both axes. -/
theorem rectIntersect_iff (r1 r2 : Rect) :
    r1.RectIntersect r2 = true ↔
      (r2.topLeft.x < r1.topLeft.x + (r1.width : ℚ)
        ∧ r1.topLeft.x < r2.topLeft.x + (r2.width : ℚ)
        ∧ r2.topLeft.y < r1.topLeft.y + (r1.height : ℚ)
        ∧ r1.topLeft.y < r2.topLeft.y + (r2.height : ℚ)) := by
  simp only [Rect.RectIntersect]
  split
  · rename_i hcond
    simp only [Bool.false_eq_true, false_iff]
    intro ⟨h1, h2, h3, h4⟩
    rcases hcond with h | h | h | h <;> linarith
  · rename_i hcond
    push_neg at hcond
    obtain ⟨h1, h2, h3, h4⟩ := hcond
    simp only [true_iff]
    exact ⟨h2, h1, h4, h3⟩

/-- C6: the AABB overlap test returns `false` whenever the X intervals
are disjoint (touching included), regardless of Y, and symmetrically
for Y; and it returns `true` exactly when the boxes overlap *strictly*
on both axes, so touching boxes (`right1 == left2`) never report a
collision. -/
theorem rectIntersect_requires_strict_overlap (r1 r2 : Rect) :
    ((r1.topLeft.x + (r1.width : ℚ) ≤ r2.topLeft.x
        ∨ r2.topLeft.x + (r2.width : ℚ) ≤ r1.topLeft.x) →
      r1.RectIntersect r2 = false) ∧
    ((r1.topLeft.y + (r1.height : ℚ) ≤ r2.topLeft.y
        ∨ r2.topLeft.y + (r2.height : ℚ) ≤ r1.topLeft.y) →
      r1.RectIntersect r2 = false) ∧
    (r1.RectIntersect r2 = true ↔
      (r2.topLeft.x < r1.topLeft.x + (r1.width : ℚ)
        ∧ r1.topLeft.x < r2.topLeft.x + (r2.width : ℚ)
        ∧ r2.topLeft.y < r1.topLeft.y + (r1.height : ℚ)
        ∧ r1.topLeft.y < r2.topLeft.y + (r2.height : ℚ))) := by
  have key := rectIntersect_iff r1 r2
  refine ⟨?_, ?_, key⟩
  · intro h
    cases hI : r1.RectIntersect r2 with
    | false => rfl
    | true =>
        obtain ⟨h1, h2, h3, h4⟩ := key.mp hI
        rcases h with h | h <;> linarith
  · intro h
    cases hI : r1.RectIntersect r2 with
    | false => rfl
    | true =>
        obtain ⟨h1, h2, h3, h4⟩ := key.mp hI
        rcases h with h | h <;> linarith

/-- Witness for C6 at concrete boxes: two 32×32 boxes that merely touch
(`right1 = 32 = left2`) have disjoint-or-touching X intervals and are
not reported as colliding. -/
theorem rectIntersect_requires_strict_overlap_witness :
    (Rect.mk ⟨0, 0⟩ 32 32).RectIntersect (Rect.mk ⟨32, 0⟩ 32 32) = false :=
  (rectIntersect_requires_strict_overlap (Rect.mk ⟨0, 0⟩ 32 32)
    (Rect.mk ⟨32, 0⟩ 32 32)).1 (Or.inl (by norm_num))

/-! ## Component storage (ComponentStorage.h)

A generic slot allocator: a value array, a parallel validity-marker
array, a LIFO free list of reclaimed slots, and a live-slot counter. -/

/-- `ComponentStorage<T>` from ComponentStorage.h. -/
structure ComponentStorage (α : Type) where
  mStorage : List α
  mValid : List Bool
  mFreeList : List Nat
  mCount : Nat
deriving DecidableEq

namespace ComponentStorage

/-- `ComponentStorage::store`: reuse the most recently freed slot if one
exists, else append a new slot; returns the updated storage and the slot
id (the C++ function mutates in place and returns the id). -/
def store (s : ComponentStorage α) (value : α) : ComponentStorage α × Nat :=
  match s.mFreeList with
  | id :: rest =>
      ({ mStorage := s.mStorage.set id value
         mValid := s.mValid.set id true
         mFreeList := rest
         mCount := s.mCount + 1 }, id)
  | [] =>
      ({ mStorage := s.mStorage ++ [value]
         mValid := s.mValid ++ [true]
         mFreeList := []
         mCount := s.mCount + 1 }, s.mStorage.length)

/-- `ComponentStorage::remove` (release semantics: the `assert(valid(id))`
is compiled out): invalidate the slot, reset it to the default value
`T{}`, push it onto the free list, decrement the counter. -/
def remove [Inhabited α] (s : ComponentStorage α) (id : Nat) : ComponentStorage α :=
  { mStorage := s.mStorage.set id default
    mValid := s.mValid.set id false
    mFreeList := id :: s.mFreeList
    mCount := s.mCount - 1 }

/-- `ComponentStorage::valid`: `id < mValid.size() && mValid[id]`. -/
def valid (s : ComponentStorage α) (id : Nat) : Bool :=
  decide (id < s.mValid.length) && s.mValid.getD id false

/-- `ComponentStorage::size`: returns `mCount`. -/
def size (s : ComponentStorage α) : Nat :=
  s.mCount

/-- The number of slots whose validity marker is `true` (the quantity
`size` is supposed to track). -/
def countValid (s : ComponentStorage α) : Nat :=
  s.mValid.count true

end ComponentStorage

/-- One registry operation of the kind claim C8 quantifies over. -/
inductive StorageOp (α : Type) where
  | storeOp : α → StorageOp α
  | removeOp : Nat → StorageOp α
deriving DecidableEq

/-- Run a sequence of storage operations left to right. -/
def runOps [Inhabited α] (s : ComponentStorage α) : List (StorageOp α) → ComponentStorage α
  | [] => s
  | StorageOp.storeOp v :: rest => runOps (s.store v).1 rest
  | StorageOp.removeOp i :: rest => runOps (s.remove i) rest

/-- Every `remove` in the sequence targets a slot that is valid at that
point (this also rules out duplicate removes of the same slot). -/
def ValidOps [Inhabited α] (s : ComponentStorage α) : List (StorageOp α) → Bool
  | [] => true
  | StorageOp.storeOp v :: rest => ValidOps (s.store v).1 rest
  | StorageOp.removeOp i :: rest => s.valid i && ValidOps (s.remove i) rest

/-- Number of store operations in a sequence. -/
def numStores : List (StorageOp α) → Nat
  | [] => 0
  | StorageOp.storeOp _ :: rest => numStores rest + 1
  | StorageOp.removeOp _ :: rest => numStores rest

/-- Number of remove operations in a sequence. -/
def numRemoves : List (StorageOp α) → Nat
  | [] => 0
  | StorageOp.storeOp _ :: rest => numRemoves rest
  | StorageOp.removeOp _ :: rest => numRemoves rest + 1

/-- The storage representation invariant: the counter agrees with the
validity markers, the arrays stay parallel, and the free list holds
exactly invalid, in-range, pairwise distinct slots. -/
structure StorageInv (s : ComponentStorage α) : Prop where
  count_eq : s.mCount = s.countValid
  len_eq : s.mStorage.length = s.mValid.length
  free_lt : ∀ i ∈ s.mFreeList, i < s.mValid.length
  free_invalid : ∀ i ∈ s.mFreeList, s.mValid.getD i false = false
  free_nodup : s.mFreeList.Nodup

theorem getD_set_self (l : List Bool) (i : Nat) (b : Bool) (h : i < l.length) :
    (l.set i b).getD i false = b := by
  induction l generalizing i with
  | nil => simp at h
  | cons a t ih =>
    cases i with
    | zero => rfl
    | succ n =>
      simp only [List.set_cons_succ, List.getD_cons_succ]
      exact ih n (by simpa using h)

theorem getD_set_ne (l : List Bool) (i j : Nat) (b : Bool) (h : i ≠ j) :
    (l.set i b).getD j false = l.getD j false := by
  induction l generalizing i j with
  | nil => simp [List.set]
  | cons a t ih =>
    cases i with
    | zero =>
      cases j with
      | zero => exact absurd rfl h
      | succ m => rfl
    | succ n =>
      cases j with
      | zero => rfl
      | succ m =>
        simp only [List.set_cons_succ, List.getD_cons_succ]
        exact ih n m (fun hc => h (by rw [hc]))

theorem count_true_set_true (l : List Bool) (i : Nat) (hi : i < l.length)
    (hv : l.getD i false = false) :
    (l.set i true).count true = l.count true + 1 := by
  induction l generalizing i with
  | nil => simp at hi
  | cons b t ih =>
    cases i with
    | zero =>
      have hb : b = false := hv
      subst hb
      simp [List.count_cons]
    | succ n =>
      have := ih n (by simpa using hi) hv
      simp only [List.set_cons_succ, List.count_cons, this]
      omega

theorem count_true_set_false (l : List Bool) (i : Nat)
    (hv : l.getD i false = true) :
    (l.set i false).count true + 1 = l.count true := by
  induction l generalizing i with
  | nil => simp [List.getD] at hv
  | cons b t ih =>
    cases i with
    | zero =>
      have hb : b = true := hv
      subst hb
      simp [List.count_cons]
    | succ n =>
      have := ih n hv
      simp only [List.set_cons_succ, List.count_cons]
      omega

theorem store_eq_of_free_cons (s : ComponentStorage α) (v : α) (i : Nat)
    (rest : List Nat) (hf : s.mFreeList = i :: rest) :
    s.store v = ({ mStorage := s.mStorage.set i v, mValid := s.mValid.set i true,
                   mFreeList := rest, mCount := s.mCount + 1 }, i) := by
  simp only [ComponentStorage.store, hf]

theorem store_eq_of_free_nil (s : ComponentStorage α) (v : α) (hf : s.mFreeList = []) :
    s.store v = ({ mStorage := s.mStorage ++ [v], mValid := s.mValid ++ [true],
                   mFreeList := [], mCount := s.mCount + 1 }, s.mStorage.length) := by
  simp only [ComponentStorage.store, hf]

theorem storageInv_store (s : ComponentStorage α) (hinv : StorageInv s) (v : α) :
    StorageInv (s.store v).1 ∧ (s.store v).1.mCount = s.mCount + 1 := by
  obtain ⟨hc, hl, hlt, hfi, hnd⟩ := hinv
  rcases hf : s.mFreeList with _ | ⟨i, rest⟩
  · rw [store_eq_of_free_nil s v hf]
    refine ⟨⟨?_, ?_, ?_, ?_, ?_⟩, rfl⟩
    · show s.mCount + 1 = (s.mValid ++ [true]).count true
      rw [List.count_append]
      simp only [ComponentStorage.countValid] at hc
      simp [hc]
    · simp [hl]
    · intro j hj; simp at hj
    · intro j hj; simp at hj
    · simp
  · have hi_lt : i < s.mValid.length := hlt i (by rw [hf]; exact List.mem_cons_self i rest)
    have hi_inv : s.mValid.getD i false = false :=
      hfi i (by rw [hf]; exact List.mem_cons_self i rest)
    have hnd' : (i :: rest).Nodup := hf ▸ hnd
    rw [store_eq_of_free_cons s v i rest hf]
    refine ⟨⟨?_, ?_, ?_, ?_, ?_⟩, rfl⟩
    · show s.mCount + 1 = (s.mValid.set i true).count true
      rw [count_true_set_true s.mValid i hi_lt hi_inv]
      simp only [ComponentStorage.countValid] at hc
      omega
    · simp [hl]
    · intro j hj
      have : j ∈ s.mFreeList := by rw [hf]; exact List.mem_cons_of_mem i hj
      simpa using hlt j this
    · intro j hj
      have hmem : j ∈ s.mFreeList := by rw [hf]; exact List.mem_cons_of_mem i hj
      have hne : i ≠ j := fun he => (List.nodup_cons.mp hnd').1 (he ▸ hj)
      show (s.mValid.set i true).getD j false = false
      rw [getD_set_ne s.mValid i j true hne]
      exact hfi j hmem
    · exact (List.nodup_cons.mp hnd').2

theorem storageInv_remove [Inhabited α] (s : ComponentStorage α) (hinv : StorageInv s)
    (i : Nat) (hvalid : s.valid i = true) :
    StorageInv (s.remove i) ∧ (s.remove i).mCount + 1 = s.mCount := by
  obtain ⟨hc, hl, hlt, hfi, hnd⟩ := hinv
  have hi_lt : i < s.mValid.length := by
    have := (Bool.and_eq_true _ _).mp hvalid
    exact of_decide_eq_true this.1
  have hi_val : s.mValid.getD i false = true :=
    ((Bool.and_eq_true _ _).mp hvalid).2
  have hcount := count_true_set_false s.mValid i hi_val
  have hpos : 1 ≤ s.mCount := by
    rw [hc]; unfold ComponentStorage.countValid; omega
  refine ⟨⟨?_, ?_, ?_, ?_, ?_⟩, ?_⟩ <;>
    simp only [ComponentStorage.remove, ComponentStorage.countValid]
  · rw [hc] at hpos ⊢
    unfold ComponentStorage.countValid at hpos ⊢
    omega
  · simp [hl]
  · intro j hj
    rcases List.mem_cons.mp hj with he | hm
    · simpa [he] using hi_lt
    · simpa using hlt j hm
  · intro j hj
    rcases List.mem_cons.mp hj with he | hm
    · rw [he]; exact getD_set_self s.mValid i false hi_lt
    · have hne : i ≠ j := by
        intro he
        rw [← he] at hm
        have := hfi i hm
        rw [this] at hi_val
        exact Bool.false_ne_true hi_val
      rw [getD_set_ne s.mValid i j false hne]
      exact hfi j hm
  · refine List.nodup_cons.mpr ⟨?_, hnd⟩
    intro hm
    have := hfi i hm
    rw [this] at hi_val
    exact Bool.false_ne_true hi_val
  · omega

/-- C8: along any operation sequence in which every remove targets a
currently valid slot, `size()` always equals the number of slots whose
validity marker is `true`, and after `n` stores and `m` removes the
count satisfies `count + m = count₀ + n` (so from an invariant-holding
start with `count₀ = 0`, `count = n − m`). Quantifying over all such
sequences settles the property at every intermediate point, since every
prefix of a well-formed sequence is itself a well-formed sequence. -/
theorem componentStorage_size_eq_stores_sub_removes [Inhabited α]
    (s : ComponentStorage α) (ops : List (StorageOp α))
    (hinv : StorageInv s) (hwf : ValidOps s ops = true) :
    (runOps s ops).size = (runOps s ops).countValid ∧
    (runOps s ops).size + numRemoves ops = s.size + numStores ops := by
  induction ops generalizing s with
  | nil =>
    exact ⟨hinv.count_eq, by simp [runOps, numRemoves, numStores]⟩
  | cons op rest ih =>
    cases op with
    | storeOp v =>
      obtain ⟨hinv', hcnt⟩ := storageInv_store s hinv v
      have hwf' : ValidOps (s.store v).1 rest = true := hwf
      obtain ⟨h1, h2⟩ := ih (s.store v).1 hinv' hwf'
      refine ⟨h1, ?_⟩
      simp only [runOps, numRemoves, numStores] at h2 ⊢
      simp only [ComponentStorage.size] at h2 ⊢
      omega
    | removeOp i =>
      have hwf2 := (Bool.and_eq_true _ _).mp hwf
      obtain ⟨hinv', hcnt⟩ := storageInv_remove s hinv i hwf2.1
      obtain ⟨h1, h2⟩ := ih (s.remove i) hinv' hwf2.2
      refine ⟨h1, ?_⟩
      simp only [runOps, numRemoves, numStores] at h2 ⊢
      simp only [ComponentStorage.size] at h2 ⊢
      omega

/-- Witness for C8: starting from the empty storage, two stores then one
valid remove leave `size = 1 = 2 − 1`, equal to the number of `true`
validity markers. -/
theorem componentStorage_size_witness :
    (runOps (ComponentStorage.mk ([] : List Nat) [] [] 0)
        [StorageOp.storeOp 5, StorageOp.storeOp 7, StorageOp.removeOp 1]).size =
      (runOps (ComponentStorage.mk ([] : List Nat) [] [] 0)
        [StorageOp.storeOp 5, StorageOp.storeOp 7, StorageOp.removeOp 1]).countValid ∧
    (runOps (ComponentStorage.mk ([] : List Nat) [] [] 0)
        [StorageOp.storeOp 5, StorageOp.storeOp 7, StorageOp.removeOp 1]).size +
      numRemoves [StorageOp.storeOp (5 : Nat), StorageOp.storeOp 7, StorageOp.removeOp 1] =
      (ComponentStorage.mk ([] : List Nat) [] [] 0).size +
      numStores [StorageOp.storeOp (5 : Nat), StorageOp.storeOp 7, StorageOp.removeOp 1] :=
  componentStorage_size_eq_stores_sub_removes
    (ComponentStorage.mk ([] : List Nat) [] [] 0)
    [StorageOp.storeOp 5, StorageOp.storeOp 7, StorageOp.removeOp 1]
    ⟨rfl, rfl, by simp, by simp, by simp⟩ (by decide)

/-! ## Entity registry (EntityManager.h)

The registry parametrised over an abstract component value type `α`:
the C++ class holds one `ComponentStorage<T>` per declared component
type `T` in a tuple; here `mRegistries` is the list of those storages
and `NUM_COMPONENTS` is its length. -/

/-- `Entity` from EntityManager.h: an id plus a debug name. -/
structure Entity where
  id : Nat
  name : String
deriving DecidableEq

/-- `EntityManager` from EntityManager.h. Per-entity component indices
use `Option Nat`, with `none` standing for `INVALID_COMPONENT_INDEX`;
`mFreeList` keeps its stack top at the head. -/
structure EntityManager (α : Type) where
  mEntities : List Entity
  mRegistries : List (ComponentStorage α)
  mEntityToComponentIdx : List (List (Option Nat))
  mFreeList : List Nat
  mValid : List Bool
deriving DecidableEq

namespace EntityManager

/-- `EntityManager::CreateEntity`: reuse a freed id from the free list
(LIFO) if one exists, else append a fresh entity slot at the end. -/
def CreateEntity (em : EntityManager α) (name : String) : EntityManager α × Nat :=
  match em.mFreeList with
  | ret :: rest =>
      ({ em with
          mFreeList := rest
          mValid := em.mValid.set ret true
          mEntities := em.mEntities.set ret { id := ret, name := name } }, ret)
  | [] =>
      let ret := em.mEntityToComponentIdx.length
      ({ em with
          mValid := em.mValid ++ [true]
          mEntityToComponentIdx :=
            em.mEntityToComponentIdx ++ [List.replicate em.mRegistries.length none]
          mEntities := em.mEntities ++ [{ id := ret, name := name }] }, ret)

/-- `EntityManager::ValidEntity`: `id < mValid.size() && mValid[id]`. -/
def ValidEntity (em : EntityManager α) (id : Nat) : Bool :=
  decide (id < em.mValid.length) && em.mValid.getD id false

/-- The component-removal loop of `EntityManager::RemoveEntity`: walk the
entity's component-index row and, for every present component, remove it
from the registry of the matching component type (the C++ version routes
the runtime type id through `RemoveComponentByIndex`). -/
def removeAllComponents [Inhabited α] :
    List (ComponentStorage α) → List (Option Nat) → List (ComponentStorage α)
  | [], _ => []
  | regs, [] => regs
  | reg :: regs, none :: row => reg :: removeAllComponents regs row
  | reg :: regs, some compID :: row => reg.remove compID :: removeAllComponents regs row

/-- `EntityManager::RemoveEntity`: no-op on an invalid id (the guard
`if (!ValidEntity(entity) && "Remove") return;` — the string literal is
truthy, so the condition is just `!ValidEntity(entity)`); otherwise
remove every present component, clear the entity slot's name and id so
iterators see a dead slot, mark the id invalid, and push it onto the
free list. -/
def RemoveEntity [Inhabited α] (em : EntityManager α) (entity : Nat) : EntityManager α :=
  if em.ValidEntity entity = true then
    let row := em.mEntityToComponentIdx.getD entity []
    { em with
        mRegistries := removeAllComponents em.mRegistries row
        mEntityToComponentIdx := em.mEntityToComponentIdx.set entity (row.map (fun _ => none))
        mEntities := em.mEntities.set entity { id := 0, name := "" }
        mValid := em.mValid.set entity false
        mFreeList := entity :: em.mFreeList }
  else
    em

theorem createEntity_eq_of_free_cons (em : EntityManager α) (nm : String) (i : Nat)
    (rest : List Nat) (hf : em.mFreeList = i :: rest) :
    em.CreateEntity nm =
      ({ em with
          mFreeList := rest
          mValid := em.mValid.set i true
          mEntities := em.mEntities.set i { id := i, name := nm } }, i) := by
  simp only [CreateEntity, hf]

theorem removeEntity_eq_of_valid [Inhabited α] (em : EntityManager α) (entity : Nat)
    (h : em.ValidEntity entity = true) :
    em.RemoveEntity entity =
      { em with
          mRegistries :=
            removeAllComponents em.mRegistries (em.mEntityToComponentIdx.getD entity [])
          mEntityToComponentIdx :=
            em.mEntityToComponentIdx.set entity
              ((em.mEntityToComponentIdx.getD entity []).map (fun _ => none))
          mEntities := em.mEntities.set entity { id := 0, name := "" }
          mValid := em.mValid.set entity false
          mFreeList := entity :: em.mFreeList } := by
  simp only [RemoveEntity, h, if_pos]

end EntityManager

/-- C9: destroying an entity id that is not currently valid (never
created, or already destroyed) is a silent no-op: the whole registry
state — entity table, component storages, component-index rows, free
list and validity markers — is returned unchanged. -/
theorem removeEntity_invalid_is_noop [Inhabited α] (em : EntityManager α) (entity : Nat)
    (h : em.ValidEntity entity = false) :
    em.RemoveEntity entity = em := by
  simp [EntityManager.RemoveEntity, h]

/-- Witness for C9: destroying id 5 on a manager holding only entity 0
leaves the manager untouched. -/
theorem removeEntity_invalid_is_noop_witness :
    (EntityManager.mk [Entity.mk 0 "A"] ([] : List (ComponentStorage Nat)) [[]] [] [true]).ValidEntity 5
        = false ∧
    (EntityManager.mk [Entity.mk 0 "A"] ([] : List (ComponentStorage Nat)) [[]] [] [true]).RemoveEntity 5
      = EntityManager.mk [Entity.mk 0 "A"] [] [[]] [] [true] :=
  ⟨by decide,
   removeEntity_invalid_is_noop
     (EntityManager.mk [Entity.mk 0 "A"] ([] : List (ComponentStorage Nat)) [[]] [] [true]) 5
     (by decide)⟩

/-- The §8 recycling scenario executed on the registry: create entity A
on a fresh manager, destroy it, create entity B. Returns the final
manager, A's id, and B's id. -/
def recycleScenario : EntityManager Nat × Nat × Nat :=
  let fresh : EntityManager Nat := ⟨[], [], [], [], []⟩
  let pA := fresh.CreateEntity "A"
  let st2 := pA.1.RemoveEntity pA.2
  let pB := st2.CreateEntity "B"
  (pB.1, pA.2, pB.2)

/-- Counterexample to C1: in the create-A / destroy-A / create-B
scenario, B recycles A's id (LIFO free list), and A's id then *passes*
the registry's validity check — `ValidEntity(A's id)` returns `true`,
not `false` as the claim demands, because ids carry no generation
counter and the recycled id now denotes B. -/
theorem validEntity_after_recycle_cex :
    recycleScenario.2.2 = recycleScenario.2.1 ∧
    recycleScenario.1.ValidEntity recycleScenario.2.1 = true := by decide

/-- C1 as amended: after create A / destroy A, the id fails the validity
check — but only until it is recycled: the very next create returns A's
former id (LIFO) and makes that id pass the validity check again, now
denoting entity B. -/
theorem validEntity_after_recycle_amended [Inhabited α] (em : EntityManager α)
    (a : Nat) (nm : String) (h : em.ValidEntity a = true) :
    ((em.RemoveEntity a).ValidEntity a = false) ∧
    (((em.RemoveEntity a).CreateEntity nm).2 = a) ∧
    (((em.RemoveEntity a).CreateEntity nm).1.ValidEntity a = true) := by
  have ha_lt : a < em.mValid.length :=
    of_decide_eq_true ((Bool.and_eq_true _ _).mp h).1
  rw [EntityManager.removeEntity_eq_of_valid em a h]
  have hlen : (em.mValid.set a false).length = em.mValid.length := by simp
  refine ⟨?_, ?_, ?_⟩
  · show (decide (a < (em.mValid.set a false).length)
        && (em.mValid.set a false).getD a false) = false
    rw [getD_set_self em.mValid a false ha_lt, Bool.and_false]
  · rw [EntityManager.createEntity_eq_of_free_cons _ nm a em.mFreeList rfl]
  · rw [EntityManager.createEntity_eq_of_free_cons _ nm a em.mFreeList rfl]
    show (decide (a < ((em.mValid.set a false).set a true).length)
        && ((em.mValid.set a false).set a true).getD a false) = true
    rw [getD_set_self (em.mValid.set a false) a true (by rw [hlen]; exact ha_lt)]
    simp [hlen, ha_lt]

/-- Witness for the amended C1 at the concrete scenario: entity 0 ("A")
is valid on a one-entity manager; after destroy its id is invalid, and
the next create returns id 0 again and revalidates it. -/
theorem validEntity_after_recycle_amended_witness :
    (((EntityManager.mk [Entity.mk 0 "A"] ([] : List (ComponentStorage Nat)) [[]] []
        [true]).RemoveEntity 0).ValidEntity 0 = false) ∧
    ((((EntityManager.mk [Entity.mk 0 "A"] ([] : List (ComponentStorage Nat)) [[]] []
        [true]).RemoveEntity 0).CreateEntity "B").2 = 0) ∧
    ((((EntityManager.mk [Entity.mk 0 "A"] ([] : List (ComponentStorage Nat)) [[]] []
        [true]).RemoveEntity 0).CreateEntity "B").1.ValidEntity 0 = true) :=
  validEntity_after_recycle_amended
    (EntityManager.mk [Entity.mk 0 "A"] ([] : List (ComponentStorage Nat)) [[]] [] [true])
    0 "B" (by decide)

/-! ## Components (engine/components/·.h)

The collision-bearing component types, with `float` fields as `ℚ`.
`InputComponent`'s scancode bitset is modelled by the two keys the
simulation core reads (A and D, for the wall-slide test); `CameraShake`
by the two fields the collision subsystem writes. -/

/-- `LocationComponent`: base world position of an entity. -/
structure LocationComponent where
  position : Point2D
deriving DecidableEq

/-- `MovementComponent`: velocity (and max speed) of an entity. -/
structure MovementComponent where
  velocity : Point2D
  maxSpeed : ℚ
deriving DecidableEq

/-- `InputComponent`: pressed-state of the keys the core consults. -/
structure InputComponent where
  keydownA : Bool
  keydownD : Bool
deriving DecidableEq

/-- `CollisionComponent`: per-frame contact flags, bounding boxes,
static/dynamic classification. -/
structure CollisionComponent where
  collidedTop : Bool
  collidedBottom : Bool
  collidedLeft : Bool
  collidedRight : Bool
  wasStandingLast : Bool
  wasTouchingWallLast : Bool
  boundingBoxOffset : Point2D
  currentBoundingBox : Rect
  previousBoundingBox : Rect
  isStatic : Bool
  boundingBoxInitialized : Bool
deriving DecidableEq

/-- `CollisionComponent::clearCollisions`: reset the four contact flags. -/
def CollisionComponent.clearCollisions (c : CollisionComponent) : CollisionComponent :=
  { c with collidedTop := false, collidedBottom := false,
           collidedLeft := false, collidedRight := false }

/-- `CameraShake` (CameraShakeComponent.h): the trigger flag and shake
direction written by the collision subsystem. -/
structure CameraShake where
  isShaking : Bool
  horizontal : Bool
deriving DecidableEq

/-! ## Per-frame system loop bodies

One iteration row of each system's entity loop: the entity record from
the registry's iteration vector together with that entity's components
(`Option` mirrors `HasComponent`). Each loop body touches only the
current entity's components, so a system is the map of its step over
the iteration list. -/

/-- One row of a per-frame system's entity iteration. -/
structure SysEntity where
  entity : Entity
  loc : Option LocationComponent
  mov : Option MovementComponent
  col : Option CollisionComponent
  input : Option InputComponent
deriving DecidableEq

/-- `GRAVITY` from GravitySystem.h. -/
def GRAVITY : ℚ := 980

/-- `WALL_SLIDE_GRAVITY_MULTIPLIER` from GravitySystem.h (`0.3f`). -/
def WALL_SLIDE_GRAVITY_MULTIPLIER : ℚ := 3 / 10

/-- The loop body of `GravitySystem` for one entity: skip dead slots
(`id == 0`) and entities without movement; skip when grounded; apply
gravity, reduced while wall-sliding (pressed into a touched wall while
falling). -/
def gravityStep (deltaTime : ℚ) (e : SysEntity) : SysEntity :=
  if e.entity.id = 0 then e
  else
    match e.mov with
    | none => e
    | some movement =>
      let flags : Bool × Bool :=
        match e.col with
        | none => (false, false)
        | some collision =>
          let isGrounded := collision.collidedBottom
          let isWallSliding :=
            match e.input with
            | none => false
            | some input =>
              (!isGrounded) && decide (movement.velocity.y > 0) &&
                ((collision.collidedLeft && input.keydownA) ||
                 (collision.collidedRight && input.keydownD))
          (isGrounded, isWallSliding)
      if flags.1 then e
      else
        let gravityMultiplier : ℚ := if flags.2 then WALL_SLIDE_GRAVITY_MULTIPLIER else 1
        { e with mov := some { movement with velocity :=
            { movement.velocity with
                y := movement.velocity.y + GRAVITY * gravityMultiplier * deltaTime } } }

/-- `GravitySystem`: the gravity loop over the iteration list. -/
def GravitySystem (deltaTime : ℚ) (es : List SysEntity) : List SysEntity :=
  es.map (gravityStep deltaTime)

/-- The loop body of `MovementSystem` for one entity: skip dead slots
and entities lacking location or movement; explicit Euler integration
`position += velocity × deltaTime`. -/
def movementStep (deltaTime : ℚ) (e : SysEntity) : SysEntity :=
  if e.entity.id = 0 then e
  else
    match e.loc, e.mov with
    | some location, some movement =>
        { e with loc := some { position :=
            { x := location.position.x + movement.velocity.x * deltaTime
              y := location.position.y + movement.velocity.y * deltaTime } } }
    | _, _ => e

/-- `MovementSystem`: the integration loop over the iteration list. -/
def MovementSystem (deltaTime : ℚ) (es : List SysEntity) : List SysEntity :=
  es.map (movementStep deltaTime)

/-- The per-entity body of `CollisionSystem`'s first loop: skip dead
slots; clear the contact flags; recompute the bounding box from
position + offset unless the entity is static and already initialized. -/
def collisionUpdateStep (e : SysEntity) : SysEntity :=
  if e.entity.id = 0 then e
  else
    match e.col with
    | none => e
    | some collision0 =>
      let collision := collision0.clearCollisions
      match e.loc with
      | some location =>
        if !collision.isStatic || !collision.boundingBoxInitialized then
          { e with col := some { collision with
              currentBoundingBox := { collision.currentBoundingBox with
                topLeft := { x := location.position.x + collision.boundingBoxOffset.x
                             y := location.position.y + collision.boundingBoxOffset.y } }
              boundingBoxInitialized := true } }
        else
          { e with col := some collision }
      | none =>
        -- release build: the `assert(false && "…must have LocationComponent")`
        -- is compiled out and the entity keeps its stale box
        { e with col := some collision }

/-- The candidate list built by `CollisionSystem`'s first loop: the ids
of live (`id != 0`) entities carrying a collision component, in
iteration order. -/
def collisionCandidates (es : List SysEntity) : List Nat :=
  (es.filter (fun e => decide (e.entity.id ≠ 0) && e.col.isSome)).map
    (fun e => e.entity.id)

/-- C10: on a freshly constructed manager the first `CreateEntity`
returns id 0 and that id is reported valid; yet the gravity, movement
and collision loop bodies all skip entities whose id is 0 — the
gravity and movement steps leave such a row unchanged, and the
collision system never admits id 0 into its candidate-pair list. -/
theorem first_entity_id_zero_never_processed :
    (∀ (regs : List (ComponentStorage Nat)) (nm : String),
      ((EntityManager.mk [] regs [] [] []).CreateEntity nm).2 = 0 ∧
      ((EntityManager.mk [] regs [] [] []).CreateEntity nm).1.ValidEntity 0 = true) ∧
    (∀ (dt : ℚ) (e : SysEntity), e.entity.id = 0 → gravityStep dt e = e) ∧
    (∀ (dt : ℚ) (e : SysEntity), e.entity.id = 0 → movementStep dt e = e) ∧
    (∀ e : SysEntity, e.entity.id = 0 → collisionUpdateStep e = e) ∧
    (∀ es : List SysEntity, 0 ∉ collisionCandidates es) := by
  refine ⟨?_, ?_, ?_, ?_, ?_⟩
  · intro regs nm
    exact ⟨rfl, rfl⟩
  · intro dt e h
    simp [gravityStep, h]
  · intro dt e h
    simp [movementStep, h]
  · intro e h
    simp [collisionUpdateStep, h]
  · intro es hm
    simp only [collisionCandidates, List.mem_map, List.mem_filter] at hm
    obtain ⟨e, ⟨_, hfilt⟩, hid⟩ := hm
    rw [Bool.and_eq_true, decide_eq_true_eq] at hfilt
    exact hfilt.1 hid

/-- Witness for C10 at concrete inputs: the first entity of a fresh
manager has id 0, and a concrete id-0 row passes through the gravity,
movement and collision-update steps unchanged and never enters the
collision candidate list. -/
theorem first_entity_id_zero_never_processed_witness :
    (((EntityManager.mk [] ([] : List (ComponentStorage Nat)) [] [] []).CreateEntity
        "player").2 = 0) ∧
    gravityStep 1 (SysEntity.mk (Entity.mk 0 "") none none none none)
      = SysEntity.mk (Entity.mk 0 "") none none none none ∧
    movementStep 1 (SysEntity.mk (Entity.mk 0 "") none none none none)
      = SysEntity.mk (Entity.mk 0 "") none none none none ∧
    collisionUpdateStep (SysEntity.mk (Entity.mk 0 "") none none none none)
      = SysEntity.mk (Entity.mk 0 "") none none none none ∧
    0 ∉ collisionCandidates [SysEntity.mk (Entity.mk 0 "") none none none none] :=
  ⟨(first_entity_id_zero_never_processed.1 [] "player").1,
   first_entity_id_zero_never_processed.2.1 1 _ rfl,
   first_entity_id_zero_never_processed.2.2.1 1 _ rfl,
   first_entity_id_zero_never_processed.2.2.2.1 _ rfl,
   first_entity_id_zero_never_processed.2.2.2.2 _⟩

/-! ## Collision resolution (CollisionSystem.h, `ResolveCollision`)

`ResolveCollision` receives the two collision components by reference
and reaches the entities' location/movement/input components and the
camera's `CameraShake` through the entity manager. Here that footprint
is a `Body` per entity plus the shake state, and the function returns
the updated pair and shake. The in-place `+=` updates on positions and
box corners become the `shiftX`/`shiftY` helpers. -/

/-- The per-entity state `ResolveCollision` reads and writes: the
collision component, and the optional location and movement components;
`hasInput` mirrors `HasComponent<InputComponent>`. -/
structure Body where
  col : CollisionComponent
  loc : Option LocationComponent
  mov : Option MovementComponent
  hasInput : Bool
deriving DecidableEq

/-- `topLeft.x += d` on a bounding box. -/
def Rect.shiftX (r : Rect) (d : ℚ) : Rect :=
  { r with topLeft := { r.topLeft with x := r.topLeft.x + d } }

/-- `topLeft.y += d` on a bounding box. -/
def Rect.shiftY (r : Rect) (d : ℚ) : Rect :=
  { r with topLeft := { r.topLeft with y := r.topLeft.y + d } }

/-- `position.x += d` on a location component. -/
def LocationComponent.shiftX (l : LocationComponent) (d : ℚ) : LocationComponent :=
  { position := { l.position with x := l.position.x + d } }

/-- `position.y += d` on a location component. -/
def LocationComponent.shiftY (l : LocationComponent) (d : ℚ) : LocationComponent :=
  { position := { l.position with y := l.position.y + d } }

/-- `bounceDamping` from `ResolveCollision` (`0.7f`). -/
def bounceDamping : ℚ := 7 / 10

/-- The dynamic–dynamic branch of `ResolveCollision` (lines 96–194):
both entities need location components (else early return); split the
penetration in half along the smaller-overlap axis, push the bodies
apart, set complementary flags, then exchange or reflect velocities.
The horizontal sub-branch identifies the player by id
(`entity == thePlayer`, passed here as `entity1IsPlayer`/
`entity2IsPlayer`); the vertical sub-branch re-derives it from
`HasComponent<InputComponent>`. -/
def resolveDynamicDynamic (entity1IsPlayer entity2IsPlayer : Bool)
    (body1 body2 : Body) (overlap : Overlap) : Body × Body :=
  match body1.loc, body2.loc with
  | some location1, some location2 =>
    let col1 := body1.col
    let col2 := body2.col
    if overlap.horizontal < overlap.vertical then
      -- horizontal separation
      let halfOverlap := overlap.horizontal / 2
      let entity1IsLeft :=
        col1.currentBoundingBox.topLeft.x < col2.currentBoundingBox.topLeft.x
      let location1 := location1.shiftX (if entity1IsLeft then -halfOverlap else halfOverlap)
      let location2 := location2.shiftX (if entity1IsLeft then halfOverlap else -halfOverlap)
      let col1 :=
        { col1 with
            currentBoundingBox :=
              col1.currentBoundingBox.shiftX (if entity1IsLeft then -halfOverlap else halfOverlap)
            collidedRight := if entity1IsLeft then true else col1.collidedRight
            collidedLeft := if entity1IsLeft then col1.collidedLeft else true }
      let col2 :=
        { col2 with
            currentBoundingBox :=
              col2.currentBoundingBox.shiftX (if entity1IsLeft then halfOverlap else -halfOverlap)
            collidedLeft := if entity1IsLeft then true else col2.collidedLeft
            collidedRight := if entity1IsLeft then col2.collidedRight else true }
      let movs : Option MovementComponent × Option MovementComponent :=
        match body1.mov, body2.mov with
        | some movement1, some movement2 =>
          if !entity1IsPlayer && !entity2IsPlayer then
            -- exchange horizontal velocities with damping
            (some { movement1 with velocity :=
                      { movement1.velocity with x := movement2.velocity.x * bounceDamping } },
             some { movement2 with velocity :=
                      { movement2.velocity with x := movement1.velocity.x * bounceDamping } })
          else if !entity1IsPlayer && entity2IsPlayer then
            (some { movement1 with velocity :=
                      { movement1.velocity with x := -movement1.velocity.x * bounceDamping } },
             some movement2)
          else if entity1IsPlayer && !entity2IsPlayer then
            (some movement1,
             some { movement2 with velocity :=
                      { movement2.velocity with x := -movement2.velocity.x * bounceDamping } })
          else
            (some movement1, some movement2)
        | m1, m2 => (m1, m2)
      ({ body1 with col := col1, loc := some location1, mov := movs.1 },
       { body2 with col := col2, loc := some location2, mov := movs.2 })
    else
      -- vertical separation
      let halfOverlap := overlap.vertical / 2
      let entity1IsAbove :=
        col1.currentBoundingBox.topLeft.y < col2.currentBoundingBox.topLeft.y
      let location1 := location1.shiftY (if entity1IsAbove then -halfOverlap else halfOverlap)
      let location2 := location2.shiftY (if entity1IsAbove then halfOverlap else -halfOverlap)
      let col1 :=
        { col1 with
            currentBoundingBox :=
              col1.currentBoundingBox.shiftY (if entity1IsAbove then -halfOverlap else halfOverlap)
            collidedBottom := if entity1IsAbove then true else col1.collidedBottom
            collidedTop := if entity1IsAbove then col1.collidedTop else true }
      let col2 :=
        { col2 with
            currentBoundingBox :=
              col2.currentBoundingBox.shiftY (if entity1IsAbove then halfOverlap else -halfOverlap)
            collidedTop := if entity1IsAbove then true else col2.collidedTop
            collidedBottom := if entity1IsAbove then col2.collidedBottom else true }
      -- the vertical branch shadows the player test with InputComponent presence
      let entity1HasInput := body1.hasInput
      let entity2HasInput := body2.hasInput
      let movs : Option MovementComponent × Option MovementComponent :=
        match body1.mov, body2.mov with
        | some movement1, some movement2 =>
          if !entity1HasInput && !entity2HasInput then
            let v1y := movement2.velocity.y * bounceDamping
            let v2y := movement1.velocity.y * bounceDamping
            -- stop horizontal movement when both have settled
            if |v1y| < 10 ∧ |v2y| < 10 then
              (some { movement1 with velocity := { x := 0, y := v1y } },
               some { movement2 with velocity := { x := 0, y := v2y } })
            else
              (some { movement1 with velocity := { movement1.velocity with y := v1y } },
               some { movement2 with velocity := { movement2.velocity with y := v2y } })
          else
            (some movement1, some movement2)
        | m1, m2 => (m1, m2)
      ({ body1 with col := col1, loc := some location1, mov := movs.1 },
       { body2 with col := col2, loc := some location2, mov := movs.2 })
  | _, _ => (body1, body2)

/-- The static–dynamic *horizontal* branch of `ResolveCollision`
(lines 197–255), with the roles already identified: `dynBody` is the
dynamic member, `statBody` the static one. Flags are set
asymmetrically; only the dynamic body is pushed, by the full
penetration; non-players reflect into-the-wall velocity with damping,
the player gets its horizontal velocity zeroed, a wall-slide downward
clamp, and a one-shot horizontal camera shake. -/
def resolveStaticDynamicH (dynamicEntity : Nat) (dynBody statBody : Body)
    (overlap : Overlap) (thePlayer : Nat) (shake : CameraShake) :
    Body × Body × CameraShake :=
  let dynamicIsRight :=
    dynBody.col.currentBoundingBox.topLeft.x > statBody.col.currentBoundingBox.topLeft.x
  let dynCol :=
    if dynamicIsRight then { dynBody.col with collidedLeft := true }
    else { dynBody.col with collidedRight := true }
  let statCol :=
    if dynamicIsRight then { statBody.col with collidedRight := true }
    else { statBody.col with collidedLeft := true }
  match dynBody.loc with
  | some location =>
    let separation := if dynamicIsRight then overlap.horizontal else -overlap.horizontal
    let location := location.shiftX separation
    let dynCol := { dynCol with currentBoundingBox := dynCol.currentBoundingBox.shiftX separation }
    match dynBody.mov with
    | some movement =>
      if dynamicEntity ≠ thePlayer then
        let movement :=
          if (dynamicIsRight ∧ movement.velocity.x < 0)
              ∨ (¬dynamicIsRight ∧ movement.velocity.x > 0) then
            { movement with velocity :=
                { movement.velocity with x := -movement.velocity.x * bounceDamping } }
          else movement
        ({ dynBody with col := dynCol, loc := some location, mov := some movement },
         { statBody with col := statCol }, shake)
      else
        let movement := { movement with velocity := { movement.velocity with x := 0 } }
        let movement :=
          if movement.velocity.y > 150 then
            { movement with velocity := { movement.velocity with y := 150 } }
          else movement
        let shake :=
          if ¬dynCol.wasTouchingWallLast then
            { shake with isShaking := true, horizontal := true }
          else shake
        ({ dynBody with col := dynCol, loc := some location, mov := some movement },
         { statBody with col := statCol }, shake)
    | none =>
      ({ dynBody with col := dynCol, loc := some location },
       { statBody with col := statCol }, shake)
  | none =>
    ({ dynBody with col := dynCol }, { statBody with col := statCol }, shake)

/-- The static–dynamic *vertical* branch of `ResolveCollision`
(lines 256–319): asymmetric flags, full-penetration push-out of the
dynamic member only, non-player reflection with damping plus a settle
rule, and for the player a floor/ceiling vertical-velocity zeroing and
a one-shot vertical camera shake. -/
def resolveStaticDynamicV (dynamicEntity : Nat) (dynBody statBody : Body)
    (overlap : Overlap) (thePlayer : Nat) (shake : CameraShake) :
    Body × Body × CameraShake :=
  let dynamicIsBelow :=
    dynBody.col.currentBoundingBox.topLeft.y > statBody.col.currentBoundingBox.topLeft.y
  let dynCol :=
    if dynamicIsBelow then { dynBody.col with collidedTop := true }
    else { dynBody.col with collidedBottom := true }
  let statCol :=
    if dynamicIsBelow then { statBody.col with collidedBottom := true }
    else { statBody.col with collidedTop := true }
  match dynBody.loc with
  | some location =>
    let separation := if dynamicIsBelow then overlap.vertical else -overlap.vertical
    let location := location.shiftY separation
    let dynCol := { dynCol with currentBoundingBox := dynCol.currentBoundingBox.shiftY separation }
    match dynBody.mov with
    | some movement =>
      if dynamicEntity ≠ thePlayer then
        let movement :=
          if (dynamicIsBelow ∧ movement.velocity.y < 0)
              ∨ (¬dynamicIsBelow ∧ movement.velocity.y > 0) then
            { movement with velocity :=
                { movement.velocity with y := -movement.velocity.y * bounceDamping } }
          else movement
        -- settle on the (possibly reflected) vertical speed
        let movement :=
          if ¬dynamicIsBelow ∧ |movement.velocity.y| < 10 then
            { movement with velocity := { movement.velocity with x := 0 } }
          else movement
        ({ dynBody with col := dynCol, loc := some location, mov := some movement },
         { statBody with col := statCol }, shake)
      else
        let movement :=
          if ¬dynamicIsBelow ∧ movement.velocity.y > 0 then
            { movement with velocity := { movement.velocity with y := 0 } }
          else if dynamicIsBelow ∧ movement.velocity.y < 0 then
            { movement with velocity := { movement.velocity with y := 0 } }
          else movement
        let shake :=
          if ¬dynCol.wasStandingLast then
            { shake with isShaking := true, horizontal := false }
          else shake
        ({ dynBody with col := dynCol, loc := some location, mov := some movement },
         { statBody with col := statCol }, shake)
    | none =>
      ({ dynBody with col := dynCol, loc := some location },
       { statBody with col := statCol }, shake)
  | none =>
    ({ dynBody with col := dynCol }, { statBody with col := statCol }, shake)

/-- `ResolveCollision` from CollisionSystem.h: dispatch on the
static/dynamic classification of the pair and on which axis has the
smaller penetration; the camera's `CameraShake` component (reached via
`theCamera` in C++) is the `shake` argument. -/
def ResolveCollision (entity1 entity2 : Nat) (body1 body2 : Body)
    (overlap : Overlap) (thePlayer : Nat) (shake : CameraShake) :
    Body × Body × CameraShake :=
  let entity1IsPlayer := decide (entity1 = thePlayer)
  let entity2IsPlayer := decide (entity2 = thePlayer)
  let separateHorizontally := overlap.horizontal < overlap.vertical
  if !body1.col.isStatic && !body2.col.isStatic then
    let r := resolveDynamicDynamic entity1IsPlayer entity2IsPlayer body1 body2 overlap
    (r.1, r.2, shake)
  else if separateHorizontally then
    if !body1.col.isStatic then
      resolveStaticDynamicH entity1 body1 body2 overlap thePlayer shake
    else
      let r := resolveStaticDynamicH entity2 body2 body1 overlap thePlayer shake
      (r.2.1, r.1, r.2.2)
  else
    if !body1.col.isStatic then
      resolveStaticDynamicV entity1 body1 body2 overlap thePlayer shake
    else
      let r := resolveStaticDynamicV entity2 body2 body1 overlap thePlayer shake
      (r.2.1, r.1, r.2.2)

/-! ## The collision pair loop (CollisionSystem.h, lines 381–429) -/

/-- The state one iteration of the pair loop can read or write: the two
members' bodies, names and validity, the player's score component, the
two members' sprite liveness, the camera shake, and the sounds emitted
so far. Destroying an entity is modelled at this granularity by
invalidating its id and clearing its name; the registry-level
`RemoveEntity` (which also tears the components out of their storages)
is embedded above. -/
structure PairWorld where
  body1 : Body
  body2 : Body
  name1 : String
  name2 : String
  valid1 : Bool
  valid2 : Bool
  score : ℤ
  spriteAlive1 : Bool
  spriteAlive2 : Bool
  shake : CameraShake
  sounds : List String
deriving DecidableEq

/-- One iteration of `CollisionSystem`'s pair loop: skip the pair when a
member is no longer valid, when both are static, or when the boxes do
not intersect; the player–star pickup adds 10 to the player's score,
kills the star's sprite, destroys the star, emits "sparkle" and skips
resolution; otherwise compute the overlap and resolve. (The C++ sets
`star` to the non-player member's id and tests `star != 0`; branching
directly with the `≠ 0` conjunct is equivalent, since in the only
overlap of the two guards the `≠ 0` test fails in both.) -/
def processPair (entity1 entity2 thePlayer : Nat) (w : PairWorld) : PairWorld :=
  if !w.valid1 || !w.valid2 then w
  else if w.body1.col.isStatic && w.body2.col.isStatic then w
  else if !(w.body1.col.currentBoundingBox.RectIntersect w.body2.col.currentBoundingBox) then w
  else if entity1 = thePlayer ∧ w.name2 = "star" ∧ entity2 ≠ 0 then
    { w with score := w.score + 10, spriteAlive2 := false,
             valid2 := false, name2 := "",
             sounds := w.sounds ++ ["sparkle"] }
  else if entity2 = thePlayer ∧ w.name1 = "star" ∧ entity1 ≠ 0 then
    { w with score := w.score + 10, spriteAlive1 := false,
             valid1 := false, name1 := "",
             sounds := w.sounds ++ ["sparkle"] }
  else
    let overlap :=
      CalculateOverlap w.body1.col.currentBoundingBox w.body2.col.currentBoundingBox
    let r := ResolveCollision entity1 entity2 w.body1 w.body2 overlap thePlayer w.shake
    { w with body1 := r.1, body2 := r.2.1, shake := r.2.2 }

/-- Nonpositive penetration on either axis means the AABB test rejects
the pair, provided both boxes have positive extent. -/
theorem rectIntersect_false_of_nonpos_overlap (r1 r2 : Rect)
    (hw1 : 0 < r1.width) (hh1 : 0 < r1.height)
    (hw2 : 0 < r2.width) (hh2 : 0 < r2.height)
    (h : (CalculateOverlap r1 r2).horizontal ≤ 0 ∨ (CalculateOverlap r1 r2).vertical ≤ 0) :
    r1.RectIntersect r2 = false := by
  have hw1q : (0 : ℚ) < r1.width := by exact_mod_cast hw1
  have hh1q : (0 : ℚ) < r1.height := by exact_mod_cast hh1
  have hw2q : (0 : ℚ) < r2.width := by exact_mod_cast hw2
  have hh2q : (0 : ℚ) < r2.height := by exact_mod_cast hh2
  have hH : (CalculateOverlap r1 r2).horizontal
      = min (r1.topLeft.x + (r1.width : ℚ)) (r2.topLeft.x + (r2.width : ℚ))
        - max r1.topLeft.x r2.topLeft.x := rfl
  have hV : (CalculateOverlap r1 r2).vertical
      = min (r1.topLeft.y + (r1.height : ℚ)) (r2.topLeft.y + (r2.height : ℚ))
        - max r1.topLeft.y r2.topLeft.y := rfl
  cases hI : r1.RectIntersect r2 with
  | false => rfl
  | true =>
    exfalso
    obtain ⟨h1, h2, h3, h4⟩ := (rectIntersect_iff r1 r2).mp hI
    rcases h with h | h
    · rw [hH] at h
      have hmm : min (r1.topLeft.x + (r1.width : ℚ)) (r2.topLeft.x + (r2.width : ℚ))
          ≤ max r1.topLeft.x r2.topLeft.x := by linarith
      rcases min_le_iff.mp hmm with ha | hb
      · rcases le_max_iff.mp ha with h' | h' <;> linarith
      · rcases le_max_iff.mp hb with h' | h' <;> linarith
    · rw [hV] at h
      have hmm : min (r1.topLeft.y + (r1.height : ℚ)) (r2.topLeft.y + (r2.height : ℚ))
          ≤ max r1.topLeft.y r2.topLeft.y := by linarith
      rcases min_le_iff.mp hmm with ha | hb
      · rcases le_max_iff.mp ha with h' | h' <;> linarith
      · rcases le_max_iff.mp hb with h' | h' <;> linarith

/-- C7: for a pair of collidable bodies (boxes of positive extent) with
zero or negative penetration on at least one axis — already separated
or merely touching — the pair-loop iteration is a no-op: neither
body's position, bounding box, velocity or contact flags change, the
score, sprites, shake and sound list are untouched. -/
theorem processPair_separated_is_noop (entity1 entity2 thePlayer : Nat) (w : PairWorld)
    (hw1 : 0 < w.body1.col.currentBoundingBox.width)
    (hh1 : 0 < w.body1.col.currentBoundingBox.height)
    (hw2 : 0 < w.body2.col.currentBoundingBox.width)
    (hh2 : 0 < w.body2.col.currentBoundingBox.height)
    (hsep :
      (CalculateOverlap w.body1.col.currentBoundingBox
        w.body2.col.currentBoundingBox).horizontal ≤ 0 ∨
      (CalculateOverlap w.body1.col.currentBoundingBox
        w.body2.col.currentBoundingBox).vertical ≤ 0) :
    processPair entity1 entity2 thePlayer w = w := by
  have hI := rectIntersect_false_of_nonpos_overlap _ _ hw1 hh1 hw2 hh2 hsep
  unfold processPair
  rw [hI]
  simp

/-- A collision component with cleared flags and a 32×32 box at
`(x, y)`; used to build concrete witnesses. -/
def mkCol (x y : ℚ) (s : Bool) : CollisionComponent :=
  { collidedTop := false, collidedBottom := false, collidedLeft := false,
    collidedRight := false, wasStandingLast := true, wasTouchingWallLast := false,
    boundingBoxOffset := { x := 0, y := 0 },
    currentBoundingBox := { topLeft := { x := x, y := y }, width := 32, height := 32 },
    previousBoundingBox := { topLeft := { x := x, y := y }, width := 32, height := 32 },
    isStatic := s, boundingBoxInitialized := true }

/-- Witness for C7: two 32×32 dynamic boxes 100px apart are left
exactly as they were by the pair-loop iteration. -/
theorem processPair_separated_is_noop_witness :
    processPair 1 2 1
      (PairWorld.mk (Body.mk (mkCol 0 0 false) none none false)
        (Body.mk (mkCol 100 100 false) none none false)
        "a" "b" true true 0 true true (CameraShake.mk false false) []) =
      PairWorld.mk (Body.mk (mkCol 0 0 false) none none false)
        (Body.mk (mkCol 100 100 false) none none false)
        "a" "b" true true 0 true true (CameraShake.mk false false) [] :=
  processPair_separated_is_noop 1 2 1 _
    (by decide) (by decide) (by decide) (by decide)
    (Or.inl (by norm_num [CalculateOverlap, mkCol, min_def, max_def]))

/-- C5: when the pair loop finds the player overlapping an entity named
"star" (and at least one of the two is dynamic), the pickup branch
runs: the player's score grows by 10, the star's sprite is marked
not-renderable, the star entity is destroyed (its id becomes invalid),
the "sparkle" sound is emitted, and physical resolution is skipped —
both bodies (positions, boxes, velocities, contact flags) and the
camera shake are untouched. -/
theorem processPair_star_pickup (entity1 entity2 thePlayer : Nat) (w : PairWorld)
    (hv1 : w.valid1 = true) (hv2 : w.valid2 = true)
    (hstat : (w.body1.col.isStatic && w.body2.col.isStatic) = false)
    (hI : w.body1.col.currentBoundingBox.RectIntersect w.body2.col.currentBoundingBox = true)
    (hp : entity1 = thePlayer) (hname : w.name2 = "star") (hnz : entity2 ≠ 0) :
    processPair entity1 entity2 thePlayer w =
      { w with score := w.score + 10, spriteAlive2 := false,
               valid2 := false, name2 := "", sounds := w.sounds ++ ["sparkle"] } := by
  unfold processPair
  rw [hv1, hv2, hstat, hI]
  simp [hp, hname, hnz]

/-- Witness for C5: player (id 1) overlapping a dynamic star (id 2):
score 0 → 10, star sprite killed, star invalidated, "sparkle" emitted,
bodies and shake untouched. -/
theorem processPair_star_pickup_witness :
    processPair 1 2 1
      (PairWorld.mk (Body.mk (mkCol 0 0 false) none none true)
        (Body.mk (mkCol 16 0 false) none none false)
        "player" "star" true true 0 true true (CameraShake.mk false false) []) =
      PairWorld.mk (Body.mk (mkCol 0 0 false) none none true)
        (Body.mk (mkCol 16 0 false) none none false)
        "player" "" true false 10 true false (CameraShake.mk false false) ["sparkle"] :=
  processPair_star_pickup 1 2 1 _
    rfl rfl rfl (by norm_num [Rect.RectIntersect, mkCol]) rfl rfl (by decide)

/-- C4: two overlapping dynamic bodies, neither the player, resolved on
the horizontal axis with body 1 on the left: each body is pushed half
the penetration apart (position and box in lockstep), the facing
contact flags are set, and the horizontal velocities are exchanged
scaled by the damping factor 7/10. -/
theorem resolveCollision_dyn_dyn_horizontal_swap
    (entity1 entity2 thePlayer : Nat) (body1 body2 : Body)
    (overlap : Overlap) (shake : CameraShake)
    (l1 l2 : LocationComponent) (m1 m2 : MovementComponent)
    (h1d : body1.col.isStatic = false) (h2d : body2.col.isStatic = false)
    (hl1 : body1.loc = some l1) (hl2 : body2.loc = some l2)
    (hm1 : body1.mov = some m1) (hm2 : body2.mov = some m2)
    (hax : overlap.horizontal < overlap.vertical)
    (hleft : body1.col.currentBoundingBox.topLeft.x
      < body2.col.currentBoundingBox.topLeft.x)
    (hp1 : entity1 ≠ thePlayer) (hp2 : entity2 ≠ thePlayer) :
    ResolveCollision entity1 entity2 body1 body2 overlap thePlayer shake =
      ({ body1 with
          col := { body1.col with
            collidedRight := true
            currentBoundingBox :=
              body1.col.currentBoundingBox.shiftX (-(overlap.horizontal / 2)) }
          loc := some (l1.shiftX (-(overlap.horizontal / 2)))
          mov := some { m1 with velocity :=
            { m1.velocity with x := m2.velocity.x * bounceDamping } } },
       { body2 with
          col := { body2.col with
            collidedLeft := true
            currentBoundingBox :=
              body2.col.currentBoundingBox.shiftX (overlap.horizontal / 2) }
          loc := some (l2.shiftX (overlap.horizontal / 2))
          mov := some { m2 with velocity :=
            { m2.velocity with x := m1.velocity.x * bounceDamping } } },
       shake) := by
  unfold ResolveCollision resolveDynamicDynamic
  rw [hl1, hl2, hm1, hm2, h1d, h2d]
  simp [hax, hleft, hp1, hp2]

/-- Witness for C4 at the §8 numbers: two equal 32×32 dynamic non-player
bodies overlapping 10px horizontally, moving toward each other at ±100:
each is pushed 5px apart and the velocities become −70 and +70. -/
theorem resolveCollision_dyn_dyn_horizontal_swap_witness :
    ResolveCollision 1 2
      (Body.mk (mkCol 0 0 false)
        (some (LocationComponent.mk (Point2D.mk 0 0)))
        (some (MovementComponent.mk (Point2D.mk 100 0) 300)) false)
      (Body.mk (mkCol 22 0 false)
        (some (LocationComponent.mk (Point2D.mk 22 0)))
        (some (MovementComponent.mk (Point2D.mk (-100) 0) 300)) false)
      (Overlap.mk 10 32) 3 (CameraShake.mk false false) =
      (Body.mk { mkCol 0 0 false with
          collidedRight := true
          currentBoundingBox := Rect.mk (Point2D.mk (-5) 0) 32 32 }
        (some (LocationComponent.mk (Point2D.mk (-5) 0)))
        (some (MovementComponent.mk (Point2D.mk (-70) 0) 300)) false,
       Body.mk { mkCol 22 0 false with
          collidedLeft := true
          currentBoundingBox := Rect.mk (Point2D.mk 27 0) 32 32 }
        (some (LocationComponent.mk (Point2D.mk 27 0)))
        (some (MovementComponent.mk (Point2D.mk 70 0) 300)) false,
       CameraShake.mk false false) := by
  rw [resolveCollision_dyn_dyn_horizontal_swap 1 2 3 _ _ _ _
    (LocationComponent.mk (Point2D.mk 0 0)) (LocationComponent.mk (Point2D.mk 22 0))
    (MovementComponent.mk (Point2D.mk 100 0) 300)
    (MovementComponent.mk (Point2D.mk (-100) 0) 300)
    rfl rfl rfl rfl rfl rfl (by norm_num) (by norm_num [mkCol]) (by decide) (by decide)]
  norm_num [mkCol, Rect.shiftX, LocationComponent.shiftX, bounceDamping]

/-- C3: a static–dynamic pair resolved on the vertical axis with the
dynamic body above the static one: only the dynamic body moves, pushed
up by the *full* vertical penetration (position and box in lockstep);
the dynamic body's `collidedBottom` and the static body's `collidedTop`
flags are set; the static body's position, box and velocity are
untouched; and if the dynamic body is the player with downward
(positive) vertical velocity, that vertical velocity is set to 0. -/
theorem resolveCollision_static_dynamic_vertical_landing
    (entity1 entity2 thePlayer : Nat) (body1 body2 : Body)
    (overlap : Overlap) (shake : CameraShake) (loc2 : LocationComponent)
    (h1s : body1.col.isStatic = true) (h2d : body2.col.isStatic = false)
    (hax : ¬(overlap.horizontal < overlap.vertical))
    (habove : ¬(body2.col.currentBoundingBox.topLeft.y
      > body1.col.currentBoundingBox.topLeft.y))
    (hloc : body2.loc = some loc2) :
    ((ResolveCollision entity1 entity2 body1 body2 overlap thePlayer shake).2.1.col =
      { body2.col with
          collidedBottom := true
          currentBoundingBox := body2.col.currentBoundingBox.shiftY (-overlap.vertical) }) ∧
    ((ResolveCollision entity1 entity2 body1 body2 overlap thePlayer shake).2.1.loc =
      some (loc2.shiftY (-overlap.vertical))) ∧
    ((ResolveCollision entity1 entity2 body1 body2 overlap thePlayer shake).1.col =
      { body1.col with collidedTop := true }) ∧
    ((ResolveCollision entity1 entity2 body1 body2 overlap thePlayer shake).1.loc =
      body1.loc) ∧
    ((ResolveCollision entity1 entity2 body1 body2 overlap thePlayer shake).1.mov =
      body1.mov) ∧
    (entity2 = thePlayer → ∀ m, body2.mov = some m → 0 < m.velocity.y →
      (ResolveCollision entity1 entity2 body1 body2 overlap thePlayer shake).2.1.mov =
        some { m with velocity := { m.velocity with y := 0 } }) := by
  unfold ResolveCollision resolveStaticDynamicV
  rw [hloc, h1s, h2d]
  rcases hm : body2.mov with _ | m
  · simp [hax, habove]
  · by_cases hp : entity2 = thePlayer
    · refine ⟨?_, ?_, ?_, ?_, ?_, ?_⟩
      · simp [hax, habove, hp]
      · simp [hax, habove, hp]
      · simp [hax, habove, hp]
      · simp [hax, habove, hp]
      · simp [hax, habove, hp]
      · intro _ m' hm' hy
        have hmm : m = m' := by injection hm'
        subst hmm
        simp [hax, habove, hp, hy]
    · refine ⟨?_, ?_, ?_, ?_, ?_, ?_⟩
      · simp [hax, habove, hp]
      · simp [hax, habove, hp]
      · simp [hax, habove, hp]
      · simp [hax, habove, hp]
      · simp [hax, habove, hp]
      · intro heq'
        exact absurd heq' hp

/-- Witness for C3 at the §8 scenario: static 32×32 box at (0,0), the
player's dynamic 32×32 box landing from above at (0,−28) (4px vertical,
32px horizontal penetration) with downward velocity 100: the dynamic
body moves up by exactly 4px, its `collidedBottom` and the static
body's `collidedTop` are set, and the vertical velocity is zeroed. -/
theorem resolveCollision_static_dynamic_vertical_landing_witness :
    ((ResolveCollision 1 2
        (Body.mk (mkCol 0 0 true) (some (LocationComponent.mk (Point2D.mk 0 0))) none false)
        (Body.mk (mkCol 0 (-28) false) (some (LocationComponent.mk (Point2D.mk 0 (-28))))
          (some (MovementComponent.mk (Point2D.mk 0 100) 300)) true)
        (Overlap.mk 32 4) 2 (CameraShake.mk false false)).2.1.loc =
      some (LocationComponent.mk (Point2D.mk 0 (-32)))) ∧
    ((ResolveCollision 1 2
        (Body.mk (mkCol 0 0 true) (some (LocationComponent.mk (Point2D.mk 0 0))) none false)
        (Body.mk (mkCol 0 (-28) false) (some (LocationComponent.mk (Point2D.mk 0 (-28))))
          (some (MovementComponent.mk (Point2D.mk 0 100) 300)) true)
        (Overlap.mk 32 4) 2 (CameraShake.mk false false)).2.1.col.collidedBottom = true) ∧
    ((ResolveCollision 1 2
        (Body.mk (mkCol 0 0 true) (some (LocationComponent.mk (Point2D.mk 0 0))) none false)
        (Body.mk (mkCol 0 (-28) false) (some (LocationComponent.mk (Point2D.mk 0 (-28))))
          (some (MovementComponent.mk (Point2D.mk 0 100) 300)) true)
        (Overlap.mk 32 4) 2 (CameraShake.mk false false)).1.col.collidedTop = true) ∧
    ((ResolveCollision 1 2
        (Body.mk (mkCol 0 0 true) (some (LocationComponent.mk (Point2D.mk 0 0))) none false)
        (Body.mk (mkCol 0 (-28) false) (some (LocationComponent.mk (Point2D.mk 0 (-28))))
          (some (MovementComponent.mk (Point2D.mk 0 100) 300)) true)
        (Overlap.mk 32 4) 2 (CameraShake.mk false false)).2.1.mov =
      some (MovementComponent.mk (Point2D.mk 0 0) 300)) := by
  have h := resolveCollision_static_dynamic_vertical_landing 1 2 2
    (Body.mk (mkCol 0 0 true) (some (LocationComponent.mk (Point2D.mk 0 0))) none false)
    (Body.mk (mkCol 0 (-28) false) (some (LocationComponent.mk (Point2D.mk 0 (-28))))
      (some (MovementComponent.mk (Point2D.mk 0 100) 300)) true)
    (Overlap.mk 32 4) (CameraShake.mk false false)
    (LocationComponent.mk (Point2D.mk 0 (-28)))
    rfl rfl (by norm_num) (by norm_num [mkCol]) rfl
  refine ⟨?_, ?_, ?_, ?_⟩
  · rw [h.2.1]
    norm_num [LocationComponent.shiftY]
  · rw [h.1]
  · rw [h.2.2.1]
  · exact h.2.2.2.2.2 rfl (MovementComponent.mk (Point2D.mk 0 100) 300) rfl (by norm_num)

/-- Counterexample to C2: an overlapping dynamic–dynamic pair resolved
on the *vertical* axis (horizontal penetration 32, vertical 4) in which
exactly one member (entity 2) is the player: the non-player's vertical
velocity stays 100 — it is *not* reflected to −100·0.7 = −70 as the
claim requires for the selected axis. -/
theorem resolveCollision_vertical_one_player_no_reflection_cex :
    ((ResolveCollision 1 2
        (Body.mk (mkCol 0 0 false) (some (LocationComponent.mk (Point2D.mk 0 0)))
          (some (MovementComponent.mk (Point2D.mk 0 100) 300)) false)
        (Body.mk (mkCol 0 28 false) (some (LocationComponent.mk (Point2D.mk 0 28)))
          (some (MovementComponent.mk (Point2D.mk 0 (-50)) 300)) true)
        (Overlap.mk 32 4) 2 (CameraShake.mk false false)).1.mov =
      some (MovementComponent.mk (Point2D.mk 0 100) 300)) ∧
    (MovementComponent.mk (Point2D.mk 0 (100 : ℚ)) 300 ≠
      MovementComponent.mk (Point2D.mk 0 (-(100 : ℚ) * bounceDamping)) 300) := by
  constructor
  · norm_num [ResolveCollision, resolveDynamicDynamic, mkCol]
  · intro h
    have : (100 : ℚ) = -(100 : ℚ) * bounceDamping := congrArg (fun m => m.velocity.y) h
    norm_num [bounceDamping] at this

/-- C2 as amended: in an overlapping dynamic–dynamic pair (both members
with location and movement components), the one-player reflection
applies only when the *horizontal* axis is selected: there the
non-player's horizontal velocity becomes −v·0.7 and the player's
velocity is untouched (player identified by entity id). When the
vertical axis is selected, the branch identifies the player by
InputComponent presence and has no exactly-one-player case, so with
exactly one member carrying an input component both members' velocities
are left unchanged. -/
theorem resolveCollision_one_player_reflection_amended
    (entity1 entity2 thePlayer : Nat) (body1 body2 : Body)
    (overlap : Overlap) (shake : CameraShake)
    (l1 l2 : LocationComponent) (m1 m2 : MovementComponent)
    (h1d : body1.col.isStatic = false) (h2d : body2.col.isStatic = false)
    (hl1 : body1.loc = some l1) (hl2 : body2.loc = some l2)
    (hm1 : body1.mov = some m1) (hm2 : body2.mov = some m2) :
    ((overlap.horizontal < overlap.vertical) → entity1 = thePlayer → entity2 ≠ thePlayer →
      ((ResolveCollision entity1 entity2 body1 body2 overlap thePlayer shake).2.1.mov =
          some { m2 with velocity :=
            { m2.velocity with x := -m2.velocity.x * bounceDamping } } ∧
        (ResolveCollision entity1 entity2 body1 body2 overlap thePlayer shake).1.mov =
          some m1)) ∧
    ((overlap.horizontal < overlap.vertical) → entity1 ≠ thePlayer → entity2 = thePlayer →
      ((ResolveCollision entity1 entity2 body1 body2 overlap thePlayer shake).1.mov =
          some { m1 with velocity :=
            { m1.velocity with x := -m1.velocity.x * bounceDamping } } ∧
        (ResolveCollision entity1 entity2 body1 body2 overlap thePlayer shake).2.1.mov =
          some m2)) ∧
    (¬(overlap.horizontal < overlap.vertical) → body1.hasInput ≠ body2.hasInput →
      ((ResolveCollision entity1 entity2 body1 body2 overlap thePlayer shake).1.mov =
          some m1 ∧
       (ResolveCollision entity1 entity2 body1 body2 overlap thePlayer shake).2.1.mov =
          some m2)) := by
  refine ⟨?_, ?_, ?_⟩
  · intro hax hp1 hp2
    unfold ResolveCollision resolveDynamicDynamic
    rw [hl1, hl2, hm1, hm2, h1d, h2d]
    constructor <;> simp [hax, hp1, hp2]
  · intro hax hp1 hp2
    unfold ResolveCollision resolveDynamicDynamic
    rw [hl1, hl2, hm1, hm2, h1d, h2d]
    constructor <;> simp [hax, hp1, hp2]
  · intro hax hne
    unfold ResolveCollision resolveDynamicDynamic
    rw [hl1, hl2, hm1, hm2, h1d, h2d]
    cases hi1 : body1.hasInput <;> cases hi2 : body2.hasInput
    · exact absurd (hi1.trans hi2.symm) hne
    · constructor <;> simp [hax, hi1, hi2]
    · constructor <;> simp [hax, hi1, hi2]
    · exact absurd (hi1.trans hi2.symm) hne

/-- Witness for the amended C2: both a concrete horizontal one-player
pair (non-player reflected to −70, player kept) and a concrete vertical
one-player pair (both velocities unchanged). -/
theorem resolveCollision_one_player_reflection_amended_witness :
    ((ResolveCollision 1 2
        (Body.mk (mkCol 0 0 false) (some (LocationComponent.mk (Point2D.mk 0 0)))
          (some (MovementComponent.mk (Point2D.mk 40 0) 300)) true)
        (Body.mk (mkCol 22 0 false) (some (LocationComponent.mk (Point2D.mk 22 0)))
          (some (MovementComponent.mk (Point2D.mk 100 0) 300)) false)
        (Overlap.mk 10 32) 1 (CameraShake.mk false false)).2.1.mov =
      some (MovementComponent.mk (Point2D.mk (-70) 0) 300) ∧
     (ResolveCollision 1 2
        (Body.mk (mkCol 0 0 false) (some (LocationComponent.mk (Point2D.mk 0 0)))
          (some (MovementComponent.mk (Point2D.mk 40 0) 300)) true)
        (Body.mk (mkCol 22 0 false) (some (LocationComponent.mk (Point2D.mk 22 0)))
          (some (MovementComponent.mk (Point2D.mk 100 0) 300)) false)
        (Overlap.mk 10 32) 1 (CameraShake.mk false false)).1.mov =
      some (MovementComponent.mk (Point2D.mk 40 0) 300)) ∧
    ((ResolveCollision 1 2
        (Body.mk (mkCol 0 0 false) (some (LocationComponent.mk (Point2D.mk 0 0)))
          (some (MovementComponent.mk (Point2D.mk 0 100) 300)) false)
        (Body.mk (mkCol 0 28 false) (some (LocationComponent.mk (Point2D.mk 0 28)))
          (some (MovementComponent.mk (Point2D.mk 0 (-50)) 300)) true)
        (Overlap.mk 32 4) 2 (CameraShake.mk false false)).1.mov =
      some (MovementComponent.mk (Point2D.mk 0 100) 300) ∧
     (ResolveCollision 1 2
        (Body.mk (mkCol 0 0 false) (some (LocationComponent.mk (Point2D.mk 0 0)))
          (some (MovementComponent.mk (Point2D.mk 0 100) 300)) false)
        (Body.mk (mkCol 0 28 false) (some (LocationComponent.mk (Point2D.mk 0 28)))
          (some (MovementComponent.mk (Point2D.mk 0 (-50)) 300)) true)
        (Overlap.mk 32 4) 2 (CameraShake.mk false false)).2.1.mov =
      some (MovementComponent.mk (Point2D.mk 0 (-50)) 300)) := by
  constructor
  · have h := (resolveCollision_one_player_reflection_amended 1 2 1
      (Body.mk (mkCol 0 0 false) (some (LocationComponent.mk (Point2D.mk 0 0)))
        (some (MovementComponent.mk (Point2D.mk 40 0) 300)) true)
      (Body.mk (mkCol 22 0 false) (some (LocationComponent.mk (Point2D.mk 22 0)))
        (some (MovementComponent.mk (Point2D.mk 100 0) 300)) false)
      (Overlap.mk 10 32) (CameraShake.mk false false)
      (LocationComponent.mk (Point2D.mk 0 0)) (LocationComponent.mk (Point2D.mk 22 0))
      (MovementComponent.mk (Point2D.mk 40 0) 300)
      (MovementComponent.mk (Point2D.mk 100 0) 300)
      rfl rfl rfl rfl rfl rfl).1 (by norm_num) rfl (by decide)
    refine ⟨?_, h.2⟩
    rw [h.1]
    norm_num [bounceDamping]
  · exact (resolveCollision_one_player_reflection_amended 1 2 2
      (Body.mk (mkCol 0 0 false) (some (LocationComponent.mk (Point2D.mk 0 0)))
        (some (MovementComponent.mk (Point2D.mk 0 100) 300)) false)
      (Body.mk (mkCol 0 28 false) (some (LocationComponent.mk (Point2D.mk 0 28)))
        (some (MovementComponent.mk (Point2D.mk 0 (-50)) 300)) true)
      (Overlap.mk 32 4) (CameraShake.mk false false)
      (LocationComponent.mk (Point2D.mk 0 0)) (LocationComponent.mk (Point2D.mk 0 28))
      (MovementComponent.mk (Point2D.mk 0 100) 300)
      (MovementComponent.mk (Point2D.mk 0 (-50)) 300)
      rfl rfl rfl rfl rfl rfl).2.2 (by norm_num) (by decide)

end ECSEngine
